import Mathlib

/-!
Verification of the notion-exporter core: a shallow embedding of
`src/markdown_converter.py`, `src/hierarchy.py` and `src/exporter.py`.

Python dictionaries fetched from the remote API are modelled as Lean
structures whose fields carry the same names as the dictionary keys; a
`dict.get(key, default)` access becomes an `Option` field read with `getD`,
and a `dict.get(key, {})` access becomes a structure-valued field whose
default value has every field absent/empty.  Exceptions raised by the
external client are modelled with `Except`/`Option` results.  Mutable
object state (the converter's `unsupported_features` list, the exporter's
statistics, the traversal's `visited` set) is threaded explicitly.
-/

/-! ## Inline spans (`markdown_converter.py`, `convert_rich_text`) -/

/-- One `UnsupportedFeature` record: `(block_type, feature, block_id)`. -/
structure UnsupportedFeature where
  block_type : String
  feature : String
  block_id : String
deriving DecidableEq, Repr

/-- The four independent style flags of `text_obj["annotations"]`
(`annotations.get(flag)` defaults to falsy when the key is missing). -/
structure Annots where
  bold : Bool := false
  italic : Bool := false
  strikethrough : Bool := false
  code : Bool := false
deriving DecidableEq, Repr

/-- The `text_obj["text"]["link"]` object; `link.get("url")`. -/
structure TextLink where
  url : Option String := none
deriving DecidableEq, Repr

/-- The `text_obj["text"]` payload: `content` (default `""`) and the
optional `link` object. -/
structure TextPayload where
  content : Option String := none
  link : Option TextLink := none
deriving DecidableEq, Repr

/-- The `text_obj["mention"]` payload; only its `type` is read. -/
structure MentionPayload where
  type : Option String := none
deriving DecidableEq, Repr

/-- The `text_obj["equation"]` payload; `expression` defaults to `""`. -/
structure EquationPayload where
  expression : Option String := none
deriving DecidableEq, Repr

/-- One rich-text object of a Notion rich text array.  Field names follow
the dictionary keys read by `convert_rich_text`; the style-flag dictionary
key `"annotations"` is rendered here as `annots`. -/
structure RichTextObj where
  type : Option String := none
  text : TextPayload := {}
  mention : MentionPayload := {}
  equation : EquationPayload := {}
  plain_text : Option String := none
  annots : Annots := {}
  href : Option String := none
deriving DecidableEq, Repr

/-- Python truthiness of an optional string (`None` and `""` are falsy). -/
def strTruthy : Option String → Bool
  | none => false
  | some s => s ≠ ""

/-- Per-object rendering step of `convert_rich_text` (the loop body of
`markdown_converter.py` lines 51-100): resolve the display text by span
kind, apply the style wrapping `code`, `bold`, `italic`, `strikethrough`
in that order, then wrap as a link when `href or (link url)` is truthy. -/
def render_rich_text_obj (obj : RichTextObj) : String :=
  let text_type := obj.type.getD "text"
  let content_link : String × Option TextLink :=
    if text_type = "text" then
      (obj.text.content.getD "", obj.text.link)
    else if text_type = "mention" then
      (match obj.mention.type with
        | some "user" => "@" ++ obj.plain_text.getD "user"
        | some "page" => obj.plain_text.getD "[page]"
        | some "database" => obj.plain_text.getD "[database]"
        | some "date" => obj.plain_text.getD "[date]"
        | _ => obj.plain_text.getD "[mention]", none)
    else if text_type = "equation" then
      ("$" ++ obj.equation.expression.getD "" ++ "$", none)
    else
      (obj.plain_text.getD "", none)
  let content := content_link.1
  let link := content_link.2
  let content := if obj.annots.code then "`" ++ content ++ "`" else content
  let content := if obj.annots.bold then "**" ++ content ++ "**" else content
  let content := if obj.annots.italic then "*" ++ content ++ "*" else content
  let content :=
    if obj.annots.strikethrough then "~~" ++ content ++ "~~" else content
  -- `href = text_obj.get("href") or (link.get("url") if link else None)`
  let href : Option String :=
    if strTruthy obj.href then obj.href
    else match link with
      | some l => l.url
      | none => none
  -- `if href:` — truthy check again (skips `None` and `""`)
  if strTruthy href then
    "[" ++ content ++ "](" ++ (href.getD "") ++ ")"
  else content

/-- `convert_rich_text` (`markdown_converter.py` lines 36-102): the empty
array yields `""`; otherwise each object is rendered and the pieces are
joined with no separator. -/
def convert_rich_text (arr : List RichTextObj) : String :=
  if arr.isEmpty then ""
  else String.join (arr.map render_rich_text_obj)

/-! ## Blocks (`markdown_converter.py`, per-type converters) -/

/-- `callout["icon"]`: `icon.get("type")` and `icon.get("emoji", "")`. -/
structure IconPayload where
  type : Option String := none
  emoji : Option String := none
deriving DecidableEq, Repr

/-- A payload holding just a `rich_text` array (paragraph, headings,
bulleted/numbered items, toggle, quote). -/
structure RichTextBlockPayload where
  rich_text : List RichTextObj := []
deriving DecidableEq, Repr

/-- The `to_do` payload: `rich_text` plus `checked` (default `False`). -/
structure TodoPayload where
  rich_text : List RichTextObj := []
  checked : Bool := false
deriving DecidableEq, Repr

/-- The `code` payload: `rich_text` plus `language` (default `""`). -/
structure CodePayload where
  rich_text : List RichTextObj := []
  language : Option String := none
deriving DecidableEq, Repr

/-- The `callout` payload: `rich_text` plus the `icon` object. -/
structure CalloutPayload where
  rich_text : List RichTextObj := []
  icon : IconPayload := {}
deriving DecidableEq, Repr

/-- The `table` payload: the two header flags (`.get(..., False)`). -/
structure TablePayload where
  has_column_header : Bool := false
  has_row_header : Bool := false
deriving DecidableEq, Repr

/-- The `table_row` payload: `cells`, a list of rich text arrays. -/
structure TableRowPayload where
  cells : List (List RichTextObj) := []
deriving DecidableEq, Repr

/-- The `image`/`file` payload.  The nested location objects
`payload["external"]["url"]` and `payload["file"]["url"]` are flattened to
the two optional url fields (`.get("url", "")` chains). -/
structure FileLikePayload where
  type : Option String := none
  external_url : Option String := none
  file_url : Option String := none
  caption : List RichTextObj := []
deriving DecidableEq, Repr

/-- The `bookmark` payload: `url` (default `""`) plus `caption`. -/
structure BookmarkPayload where
  url : Option String := none
  caption : List RichTextObj := []
deriving DecidableEq, Repr

/-- The `equation` block payload: `expression` (default `""`). -/
structure EquationBlockPayload where
  expression : Option String := none
deriving DecidableEq, Repr

/-- The `child_page`/`child_database` payload: `title`. -/
structure ChildPayload where
  title : Option String := none
deriving DecidableEq, Repr

/-- One Notion block, modelled after the dictionary keys the converter and
the hierarchy builder read.  `type` and `id` may be absent
(`block.get("type")`, `block.get("id", "unknown")`); every per-type payload
defaults to the all-absent payload (`block.get(key, {})`). -/
structure Block where
  type : Option String := none
  id : Option String := none
  paragraph : RichTextBlockPayload := {}
  heading_1 : RichTextBlockPayload := {}
  heading_2 : RichTextBlockPayload := {}
  heading_3 : RichTextBlockPayload := {}
  bulleted_list_item : RichTextBlockPayload := {}
  numbered_list_item : RichTextBlockPayload := {}
  to_do : TodoPayload := {}
  toggle : RichTextBlockPayload := {}
  code : CodePayload := {}
  quote : RichTextBlockPayload := {}
  callout : CalloutPayload := {}
  table : TablePayload := {}
  table_row : TableRowPayload := {}
  image : FileLikePayload := {}
  file : FileLikePayload := {}
  bookmark : BookmarkPayload := {}
  equation : EquationBlockPayload := {}
  child_page : ChildPayload := {}
  child_database : ChildPayload := {}
deriving DecidableEq, Repr

/-- Mutable state of a `MarkdownConverter` instance. -/
structure ConverterState where
  unsupported_features : List UnsupportedFeature := []
  track_skipped_databases : Bool := true
deriving DecidableEq, Repr

/-- `MarkdownConverter.add_unsupported`. -/
def add_unsupported (cv : ConverterState) (block_type feature block_id : String) :
    ConverterState :=
  { cv with unsupported_features :=
      cv.unsupported_features ++ [⟨block_type, feature, block_id⟩] }

/-- `convert_paragraph`. -/
def convert_paragraph (block : Block) : String :=
  convert_rich_text block.paragraph.rich_text

/-- `convert_heading` for levels 1-3: `'#' * level ++ " " ++ text`. -/
def convert_heading (block : Block) (level : Nat) : String :=
  let rich_text :=
    if level = 1 then block.heading_1.rich_text
    else if level = 2 then block.heading_2.rich_text
    else block.heading_3.rich_text
  String.mk (List.replicate level '#') ++ " " ++ convert_rich_text rich_text

/-- `convert_bulleted_list_item`. -/
def convert_bulleted_list_item (block : Block) : String :=
  "- " ++ convert_rich_text block.bulleted_list_item.rich_text

/-- `convert_numbered_list_item`: `f"{number}. {text}"`. -/
def convert_numbered_list_item (block : Block) (number : Nat) : String :=
  toString number ++ ". " ++ convert_rich_text block.numbered_list_item.rich_text

/-- `convert_to_do`. -/
def convert_to_do (block : Block) : String :=
  let checkbox := if block.to_do.checked then "[x]" else "[ ]"
  "- " ++ checkbox ++ " " ++ convert_rich_text block.to_do.rich_text

/-- `convert_toggle`: bold wrap (no collapsible construct in Markdown). -/
def convert_toggle (block : Block) : String :=
  "**" ++ convert_rich_text block.toggle.rich_text ++ "**"

/-- `convert_code`: fenced block; the code text is the concatenation of the
objects' `plain_text` fields (default `""`), not styled rendering. -/
def convert_code (block : Block) : String :=
  let code_text :=
    String.join (block.code.rich_text.map (fun t => t.plain_text.getD ""))
  "```" ++ block.code.language.getD "" ++ "\n" ++ code_text ++ "\n```"

/-- `convert_quote`. -/
def convert_quote (block : Block) : String :=
  "> " ++ convert_rich_text block.quote.rich_text

/-- The whitespace set of Python's `str.strip()` (ASCII). -/
def is_py_space (c : Char) : Bool :=
  c == ' ' || c == '\t' || c == '\n' || c == '\r' || c == '\x0b' || c == '\x0c'

/-- Python `s.strip()` on a character list: drop whitespace on both ends. -/
def py_strip_ws (cs : List Char) : List Char :=
  ((cs.dropWhile is_py_space).reverse.dropWhile is_py_space).reverse

/-- `convert_callout`: `f"> {icon_str} {text}".strip()`. -/
def convert_callout (block : Block) : String :=
  let icon_str :=
    if block.callout.icon.type = some "emoji" then
      block.callout.icon.emoji.getD ""
    else ""
  let text := convert_rich_text block.callout.rich_text
  String.mk (py_strip_ws ("> " ++ icon_str ++ " " ++ text).data)

/-- `convert_divider`. -/
def convert_divider : String := "---"

/-- `convert_table_row`: one string per cell, via `convert_rich_text`. -/
def convert_table_row (block : Block) : List String :=
  block.table_row.cells.map convert_rich_text

/-- `convert_table` (`markdown_converter.py` lines 205-255): pad all rows
to the maximum column count; with `has_column_header` the first row is the
header, otherwise a synthetic `Column i` header is emitted and all rows
are data; rows are joined with single newlines. -/
def convert_table (block : Block) (rows : List Block) : String :=
  if rows.isEmpty then ""
  else
    let has_column_header := block.table.has_column_header
    let all_rows := rows.map convert_table_row
    if all_rows.isEmpty then ""
    else
      let col_count := (all_rows.map List.length).foldl max 0
      let padded := all_rows.map
        (fun row => row ++ List.replicate (col_count - row.length) "")
      let sep := "|" ++ String.intercalate "|" (List.replicate col_count "---") ++ "|"
      let header_data : List String × List (List String) :=
        match padded, has_column_header with
        | header :: rest, true =>
          (["| " ++ String.intercalate " | " header ++ " |", sep], rest)
        | _, _ =>
          (["| " ++ String.intercalate " | "
              ((List.range col_count).map (fun i => "Column " ++ toString (i + 1)))
              ++ " |", sep], padded)
      let data_lines :=
        header_data.2.map (fun row => "| " ++ String.intercalate " | " row ++ " |")
      String.intercalate "\n" (header_data.1 ++ data_lines)

/-- The resolved url of an `image`/`file` payload (the `if image_type ==
"external" ... elif "file" ... else url = ""` computation). -/
def resolve_file_url (p : FileLikePayload) : String :=
  if p.type = some "external" then p.external_url.getD ""
  else if p.type = some "file" then p.file_url.getD ""
  else ""

/-- The list of type tags `convert_block` recognises with a dedicated
branch (everything else reaches the final `else`). -/
def known_block_types : List String :=
  ["paragraph", "heading_1", "heading_2", "heading_3", "bulleted_list_item",
   "numbered_list_item", "to_do", "toggle", "code", "quote", "callout",
   "divider", "child_page", "child_database", "table", "table_row",
   "image", "file", "bookmark", "equation", "unsupported"]

/-- `convert_block` (`markdown_converter.py` lines 257-399).  The
`list_counter` dictionary only ever holds the single key `"numbered"`, so
it is modelled as `Option Nat` (`none` = key absent).  Returns the
`(markdown, is_supported)` pair together with the updated converter state
and counter.  In the final `else` branch Python passes the raw
`block_type` (possibly `None`) to `add_unsupported` and into the f-string;
`getD "None"` reproduces Python's string formatting of `None`. -/
def convert_block (cv : ConverterState) (block : Block)
    (list_counter : Option Nat) :
    (String × Bool) × ConverterState × Option Nat :=
  let block_type := block.type
  let block_id := block.id.getD "unknown"
  if block_type = some "paragraph" then
    ((convert_paragraph block, true), cv, list_counter)
  else if block_type = some "heading_1" then
    ((convert_heading block 1, true), cv, list_counter)
  else if block_type = some "heading_2" then
    ((convert_heading block 2, true), cv, list_counter)
  else if block_type = some "heading_3" then
    ((convert_heading block 3, true), cv, list_counter)
  else if block_type = some "bulleted_list_item" then
    ((convert_bulleted_list_item block, true), cv, list_counter)
  else if block_type = some "numbered_list_item" then
    -- `if "numbered" not in list_counter: = 1 else: += 1`
    let n := match list_counter with
      | none => 1
      | some k => k + 1
    ((convert_numbered_list_item block n, true), cv, some n)
  else if block_type = some "to_do" then
    ((convert_to_do block, true), cv, list_counter)
  else if block_type = some "toggle" then
    ((convert_toggle block, true), cv, list_counter)
  else if block_type = some "code" then
    ((convert_code block, true), cv, list_counter)
  else if block_type = some "quote" then
    ((convert_quote block, true), cv, list_counter)
  else if block_type = some "callout" then
    ((convert_callout block, true), cv, list_counter)
  else if block_type = some "divider" then
    ((convert_divider, true), cv, list_counter)
  else if block_type = some "child_page" then
    (("", true), cv, list_counter)
  else if block_type = some "child_database" then
    let cv :=
      if cv.track_skipped_databases then
        add_unsupported cv "child_database" "not_exported" block_id
      else cv
    (("", true), cv, list_counter)
  else if block_type = some "table" then
    (("", true), cv, list_counter)
  else if block_type = some "table_row" then
    (("", true), cv, list_counter)
  else if block_type = some "image" then
    let url := resolve_file_url block.image
    let caption_text :=
      if block.image.caption.isEmpty then "image"
      else convert_rich_text block.image.caption
    if url ≠ "" then
      (("![" ++ caption_text ++ "](" ++ url ++ ")", true), cv, list_counter)
    else
      (("[Image: " ++ caption_text ++ "]", false),
        add_unsupported cv "image" "no_url" block_id, list_counter)
  else if block_type = some "file" then
    let url := resolve_file_url block.file
    let caption_text :=
      if block.file.caption.isEmpty then "file"
      else convert_rich_text block.file.caption
    if url ≠ "" then
      (("[" ++ caption_text ++ "](" ++ url ++ ")", true), cv, list_counter)
    else
      (("[File: " ++ caption_text ++ "]", false), cv, list_counter)
  else if block_type = some "bookmark" then
    let url := block.bookmark.url.getD ""
    let caption_text :=
      if block.bookmark.caption.isEmpty then url
      else convert_rich_text block.bookmark.caption
    if url ≠ "" then
      (("[" ++ caption_text ++ "](" ++ url ++ ")", true), cv, list_counter)
    else
      (("[Bookmark]", false), cv, list_counter)
  else if block_type = some "equation" then
    (("$$\n" ++ block.equation.expression.getD "" ++ "\n$$", true), cv,
      list_counter)
  else if block_type = some "unsupported" then
    (("[Unsupported block]", false),
      add_unsupported cv "unsupported" "unknown" block_id, list_counter)
  else
    (("[Unsupported: " ++ block_type.getD "None" ++ "]", false),
      add_unsupported cv (block_type.getD "None") "unknown_type" block_id,
      list_counter)

/-- The loop of `convert_blocks` (`markdown_converter.py` lines 414-448),
translated with structural fuel (the loop advances the index `i` at least
once per iteration, so `blocks.length` steps suffice; the fuel-0 case is
unreachable from the wrapper).  On a `table` block the immediately
following run of `table_row` blocks is consumed (`takeWhile`/`dropWhile`
mirror the inner `j` loop) and the counter dictionary is reset; on any
non-`numbered_list_item` block the `"numbered"` key is popped; empty
fragments are not appended. -/
def convert_blocks_go :
    Nat → ConverterState → List Block → Option Nat → List String × ConverterState
  | _, cv, [], _ => ([], cv)
  | 0, cv, _ :: _, _ => ([], cv)
  | fuel + 1, cv, block :: rest, list_counter =>
    if block.type = some "table" then
      let rows := rest.takeWhile (fun b => b.type == some "table_row")
      let rest' := rest.dropWhile (fun b => b.type == some "table_row")
      let md := convert_table block rows
      let next := convert_blocks_go fuel cv rest' none
      ((if md = "" then [] else [md]) ++ next.1, next.2)
    else
      let list_counter :=
        if block.type ≠ some "numbered_list_item" then none else list_counter
      let step := convert_block cv block list_counter
      let md := step.1.1
      let next := convert_blocks_go fuel step.2.1 rest step.2.2
      ((if md = "" then [] else [md]) ++ next.1, next.2)

/-- `convert_blocks`: run the loop from a fresh counter dictionary and join
the collected fragments with blank lines. -/
def convert_blocks (cv : ConverterState) (blocks : List Block) :
    String × ConverterState :=
  let r := convert_blocks_go blocks.length cv blocks none
  (String.intercalate "\n\n" r.1, r.2)

/-! ## Filename sanitisation (`exporter.py`, `sanitize_filename`,
`make_unique_filename`) -/

/-- The characters `re.sub(r'[/\\:*?"<>|]', '_', name)` replaces. -/
def invalid_filename_chars : List Char :=
  ['/', '\\', ':', '*', '?', '"', '<', '>', '|']

/-- Membership in the `strip('. ')` character set. -/
def is_dot_or_space (c : Char) : Bool := c == '.' || c == ' '

/-- Python `s.strip('. ')`: drop `.` and ` ` from both ends. -/
def strip_dot_space (cs : List Char) : List Char :=
  ((cs.dropWhile is_dot_or_space).reverse.dropWhile is_dot_or_space).reverse

/-- Python `s.rstrip('. ')`: drop `.` and ` ` from the right end. -/
def rstrip_dot_space (cs : List Char) : List Char :=
  (cs.reverse.dropWhile is_dot_or_space).reverse

/-- `re.sub(r'\s+', ' ', s)`: replace every maximal whitespace run with a
single space.  The boolean argument records whether the previous character
belonged to a whitespace run (structural translation of the regex scan). -/
def collapse_ws : Bool → List Char → List Char
  | _, [] => []
  | in_run, c :: rest =>
    if is_py_space c then
      if in_run then collapse_ws true rest
      else ' ' :: collapse_ws true rest
    else c :: collapse_ws false rest

/-- `sanitize_filename` (`exporter.py` lines 41-70) with explicit
`max_length`: replace invalid characters with `_`, strip `'. '` from both
ends, collapse whitespace runs, truncate to `max_length` (re-stripping the
right end), and substitute `"Untitled"` for an empty result. -/
def sanitize_filename_max (name : String) (max_length : Nat) : String :=
  let s1 := name.data.map (fun c =>
    if invalid_filename_chars.contains c then '_' else c)
  let s2 := strip_dot_space s1
  let s3 := collapse_ws false s2
  let s4 := if max_length < s3.length then rstrip_dot_space (s3.take max_length)
    else s3
  if s4.isEmpty then "Untitled" else String.mk s4

/-- `sanitize_filename` at its default `max_length = 200`. -/
def sanitize_filename (name : String) : String :=
  sanitize_filename_max name 200

/-- The candidate path `base_path / f"{sanitized}_{counter}{extension}"`.
`Path` values are modelled as strings with `/` the separator. -/
def suffixed_path (base_path sanitized : String) (counter : Nat)
    (extension : String) : String :=
  base_path ++ "/" ++ sanitized ++ "_" ++ toString counter ++ extension

/-- The `while True` loop of `make_unique_filename`: try `_1`, `_2`, ...
until a candidate does not exist.  The filesystem is the list `fs` of
existing paths; the loop is translated with fuel (in the source the
candidate names are pairwise distinct, so some candidate among the first
`fs.length + 1` is fresh and the fuel-0 case is unreachable). -/
def make_unique_loop (fs : List String) (base_path sanitized extension : String) :
    Nat → Nat → Option String
  | _, 0 => none
  | counter, fuel + 1 =>
    let path := suffixed_path base_path sanitized counter extension
    if path ∈ fs then make_unique_loop fs base_path sanitized extension (counter + 1) fuel
    else some path

/-- `make_unique_filename` (`exporter.py` lines 73-97): the un-suffixed
`sanitized + extension` when it does not yet exist, else the first fresh
suffixed candidate.  `path.exists()` is membership in `fs`, the list of
paths existing on the real destination filesystem.  The `getD` fallback is
unreachable under the source's semantics (see `make_unique_loop`). -/
def make_unique_filename (fs : List String) (base_path name extension : String) :
    String :=
  let sanitized := sanitize_filename name
  let path := base_path ++ "/" ++ sanitized ++ extension
  if path ∈ fs then
    (make_unique_loop fs base_path sanitized extension 1 (fs.length + 1)).getD path
  else path

/-! ## Page hierarchy (`hierarchy.py`) -/

/-- A `PageNode` of the hierarchy tree (`hierarchy.py` lines 13-27).
Declared as an inductive because the `children` field is recursive. -/
inductive PageNode where
  | mk (page_id : String) (title : String) (parent_id : Option String)
      (children : List PageNode) (is_database : Bool) (has_content : Bool)
deriving Repr

/-- The `page_id` field of a `PageNode`. -/
def PageNode.page_id : PageNode → String
  | .mk p _ _ _ _ _ => p

/-- The `title` field of a `PageNode`. -/
def PageNode.title : PageNode → String
  | .mk _ t _ _ _ _ => t

/-- The `children` field of a `PageNode`. -/
def PageNode.children : PageNode → List PageNode
  | .mk _ _ _ cs _ _ => cs

/-- One property value of a page's `properties` dictionary: its `type` tag
and (for title-typed properties) the `title` rich text array. -/
structure PageProperty where
  type : Option String := none
  title : List RichTextObj := []
deriving Repr

/-- A page object returned by `client.get_page`: the `object` kind and the
optional `properties` dictionary (modelled as an ordered association list,
matching Python's insertion-ordered dict iteration). -/
structure PageObj where
  object : Option String := none
  properties : Option (List (String × PageProperty)) := none
deriving Repr

/-- The external client collaborator.  A `.error` result models a raised
exception (its payload the exception's message). -/
structure Client where
  get_page : String → Except String PageObj
  get_block_children : String → Except String (List Block)
  search_pages : Except String (List PageObj)

/-- The property scan of `extract_page_title`: the first title-typed
property with a nonempty `title` array wins; a title-typed property with
an empty array does not return, the loop continues. -/
def extract_page_title_props : List (String × PageProperty) → String
  | [] => "Untitled"
  | (_, prop_value) :: rest =>
    if prop_value.type = some "title" then
      match prop_value.title with
      | title0 :: _ => title0.plain_text.getD "Untitled"
      | [] => extract_page_title_props rest
    else extract_page_title_props rest

/-- `extract_page_title` (`hierarchy.py` lines 56-76). -/
def extract_page_title (page : PageObj) : String :=
  match page.properties with
  | none => "Untitled"
  | some props => extract_page_title_props props

/-- `extract_child_page_title` (`hierarchy.py` lines 79-93). -/
def extract_child_page_title (block : Block) : String :=
  if block.type = some "child_page" then block.child_page.title.getD "Untitled"
  else "Untitled"

/-- `discover_child_pages` (`hierarchy.py` lines 96-122): the child-page
and child-database blocks among the page's children, in order; a fetch
failure is caught and yields the empty list. -/
def discover_child_pages (client : Client) (page_id : String) : List Block :=
  match client.get_block_children page_id with
  | .error _ => []
  | .ok blocks =>
    blocks.filter (fun b =>
      b.type == some "child_page" || b.type == some "child_database")

/-- The dead `child_title` computation of `build_page_tree`'s loop
(`hierarchy.py` lines 190-197; the value is computed but never used — the
node keeps the title extracted from the full page object). -/
def build_child_title (child_block : Block) : String :=
  if child_block.type = some "child_page" then
    extract_child_page_title child_block
  else if child_block.type = some "child_database" then
    child_block.child_database.title.getD "Untitled Database"
  else "Untitled"

/-- The child loop of `build_page_tree` (`hierarchy.py` lines 186-211),
abstracted over the recursive call `bt` (which receives the child id and
the current visited set): children returning `None` are omitted. -/
def build_page_tree_children
    (bt : String → List String → Option PageNode × List String) :
    List Block → List String → List PageNode × List String
  | [], visited => ([], visited)
  | child_block :: rest, visited =>
    let _child_title := build_child_title child_block
    let r := bt (child_block.id.getD "unknown") visited
    let r' := build_page_tree_children bt rest r.2
    ((match r.1 with
      | some child_node => [child_node]
      | none => []) ++ r'.1, r'.2)

/-- `build_page_tree` (`hierarchy.py` lines 125-217) with the remaining
recursion depth `max_depth - depth` as structural fuel.  The cycle check
precedes the depth check exactly as in the source; `visited.add(page_id)`
happens before the fetch, so a page whose fetch fails stays in the visited
set; a fetch failure (the `except` branch) returns no node. -/
def build_page_tree_go (client : Client) :
    Nat → String → Option String → List String → Option PageNode × List String
  | fuel, page_id, parent_id, visited =>
    if page_id ∈ visited then (none, visited)
    else
      match fuel with
      | 0 => (none, visited)
      | n + 1 =>
        let visited1 := page_id :: visited
        match client.get_page page_id with
        | .error _ => (none, visited1)
        | .ok page =>
          let is_database := page.object == some "database"
          let title := extract_page_title page
          let child_page_blocks := discover_child_pages client page_id
          let r := build_page_tree_children
            (fun child_id v => build_page_tree_go client n child_id (some page_id) v)
            child_page_blocks visited1
          (some (.mk page_id title parent_id r.1 is_database true), r.2)

/-- `build_page_tree` with its Python signature: `depth`/`max_depth`
become the fuel `max_depth - depth` (the depth check `depth >= max_depth`
is exactly fuel exhaustion). -/
def build_page_tree (client : Client) (page_id : String)
    (parent_id : Option String) (visited : List String)
    (depth max_depth : Nat) : Option PageNode × List String :=
  build_page_tree_go client (max_depth - depth) page_id parent_id visited

/-- `build_full_hierarchy` for a given root page id (`hierarchy.py` lines
275-279): fresh visited set, depth 0. -/
def build_full_hierarchy_from (client : Client) (root_page_id : String)
    (max_depth : Nat) : List PageNode :=
  match (build_page_tree client root_page_id none [] 0 max_depth).1 with
  | some root_node => [root_node]
  | none => []

mutual

/-- The preorder list of page identifiers of a tree. -/
def PageNode.ids : PageNode → List String
  | .mk p _ _ cs _ _ => p :: PageNode.idsList cs

/-- The preorder identifier list of a forest. -/
def PageNode.idsList : List PageNode → List String
  | [] => []
  | n :: rest => n.ids ++ PageNode.idsList rest

end

/-- No identifier repeats along any root-to-descendant path: the root id
is not among `seen` (the ids of its strict ancestors) and every child
satisfies the same with the root id added. -/
def PageNode.noPathRepeat (seen : List String) : PageNode → Prop
  | .mk p _ _ cs _ _ => p ∉ seen ∧ ∀ c ∈ cs, PageNode.noPathRepeat (p :: seen) c

/-! ## Exporter (`exporter.py`) -/

/-- `ExportStats` (`exporter.py` lines 16-38). -/
structure ExportStats where
  pages_exported : Nat := 0
  pages_failed : Nat := 0
  files_created : Nat := 0
  folders_created : Nat := 0
  errors : List (String × String) := []
  unsupported_features : List UnsupportedFeature := []
deriving Repr

/-- `ExportStats.add_error`: append the `(page_id, error)` pair and bump
the failure counter. -/
def ExportStats.add_error (stats : ExportStats) (page_id error : String) :
    ExportStats :=
  { stats with
      errors := stats.errors ++ [(page_id, error)],
      pages_failed := stats.pages_failed + 1 }

/-- The fixed part of an `Exporter` instance plus the behaviour of the
operating system: `mkdir_ok p` / `write_ok p` tell whether creating the
directory / writing the file at path `p` succeeds (`Path.mkdir` and
`open(...).write` raising is the `False` case). -/
structure Exporter where
  client : Client
  output_dir : String
  dry_run : Bool := false
  include_databases : Bool := false
  mkdir_ok : String → Bool
  write_ok : String → Bool

/-- The mutable state of an export run: the statistics, the converter's
state, the `used_paths` set, and the destination filesystem `fs` (the set
of paths that exist on disk, including pre-existing ones). -/
structure ExpState where
  stats : ExportStats := {}
  converter : ConverterState := {}
  used_paths : List String := []
  fs : List String := []
deriving Repr

/-- The initial state of `Exporter.__init__`: the converter tracks skipped
databases exactly when databases are not being exported; `fs0` is whatever
already exists at the destination. -/
def init_exp_state (include_databases : Bool) (fs0 : List String) : ExpState :=
  { converter := { track_skipped_databases := !include_databases }, fs := fs0 }

/-- `Exporter.export_page_content` (`exporter.py` lines 128-150): fetch the
block children and convert them; on a fetch exception record the error and
return `none`. -/
def export_page_content (E : Exporter) (st : ExpState) (page_id : String) :
    Option String × ExpState :=
  match E.client.get_block_children page_id with
  | .ok blocks =>
    let r := convert_blocks st.converter blocks
    (some r.1, { st with converter := r.2 })
  | .error e =>
    (none, { st with stats := st.stats.add_error page_id e })

/-- `Exporter.create_directory` (`exporter.py` lines 152-174): a dry run
always succeeds and changes nothing; otherwise `mkdir` either raises
(`false`) or makes the path exist, counting a new folder only the first
time a path is seen. -/
def create_directory (E : Exporter) (st : ExpState) (path : String) :
    Bool × ExpState :=
  if E.dry_run then (true, st)
  else if E.mkdir_ok path then
    let st := { st with fs := path :: st.fs }
    if path ∈ st.used_paths then (true, st)
    else (true, { st with
      stats := { st.stats with folders_created := st.stats.folders_created + 1 },
      used_paths := path :: st.used_paths })
  else (false, st)

/-- `Exporter.write_file` (`exporter.py` lines 176-198): a dry run always
succeeds and changes nothing; otherwise the write either raises (`false`)
or makes the file exist and bumps `files_created`. -/
def write_file (E : Exporter) (st : ExpState) (path _content : String) :
    Bool × ExpState :=
  if E.dry_run then (true, st)
  else if E.write_ok path then
    (true, { st with
        fs := path :: st.fs,
        stats := { st.stats with files_created := st.stats.files_created + 1 } })
  else (false, st)

mutual

/-- `Exporter.export_node` (`exporter.py` lines 200-259): fetch and convert
the content; a node with children becomes a directory with an `index.md`
and its children are exported into it (their results ignored); a childless
node becomes a single file at a collision-free path.  Each failure records
one error for this page and abandons the node's subtree. -/
def export_node (E : Exporter) : PageNode → String → ExpState → Bool × ExpState
  | .mk page_id title _parent children _is_db _has_content, parent_path, st =>
    let r := export_page_content E st page_id
    let st := r.2
    match r.1 with
    | none => (false, st)
    | some content =>
      match children with
      | c :: cs =>
        let folder_name := sanitize_filename title
        let folder_path := parent_path ++ "/" ++ folder_name
        let rd := create_directory E st folder_path
        if rd.1 then
          let index_path := folder_path ++ "/" ++ "index.md"
          let rw := write_file E rd.2 index_path content
          if rw.1 then
            let st := { rw.2 with stats := { rw.2.stats with
              pages_exported := rw.2.stats.pages_exported + 1 } }
            (true, export_node_children E (c :: cs) folder_path st)
          else
            (false, { rw.2 with stats :=
              rw.2.stats.add_error page_id "Failed to write index.md" })
        else
          (false, { rd.2 with stats :=
            rd.2.stats.add_error page_id "Failed to create directory" })
      | [] =>
        let file_path := make_unique_filename st.fs parent_path title ".md"
        let rw := write_file E st file_path content
        if rw.1 then
          (true, { rw.2 with stats := { rw.2.stats with
            pages_exported := rw.2.stats.pages_exported + 1 } })
        else
          (false, { rw.2 with stats :=
            rw.2.stats.add_error page_id "Failed to write file" })

/-- The `for child in node.children` loop of `export_node`: every child is
exported in order and each child's boolean result is ignored. -/
def export_node_children (E : Exporter) :
    List PageNode → String → ExpState → ExpState
  | [], _, st => st
  | child :: rest, folder_path, st =>
    export_node_children E rest folder_path (export_node E child folder_path st).2

end

/-- `Exporter.export_hierarchy` (`exporter.py` lines 261-288): create the
output directory (on failure return the statistics unchanged), export each
root, then copy the converter's unsupported-feature list into the stats. -/
def export_hierarchy (E : Exporter) (roots : List PageNode) (st : ExpState) :
    ExpState :=
  let rd := create_directory E st E.output_dir
  if rd.1 then
    let st := export_node_children E roots E.output_dir rd.2
    { st with stats := { st.stats with
      unsupported_features := st.converter.unsupported_features } }
  else rd.2

/-! ## Concrete instances and spec-side definitions

Concrete clients, blocks and exporters used by the theorems below, and
definitions that follow the specification's words (clearly marked as
such) against which the source translation is compared. -/

/-- The spec's fixed nesting order for inline style markup: code innermost,
then bold, then italic, then strikethrough. -/
def spec_style_wrap (b i strike c : Bool) (t : String) : String :=
  let t := if c then "`" ++ t ++ "`" else t
  let t := if b then "**" ++ t ++ "**" else t
  let t := if i then "*" ++ t ++ "*" else t
  if strike then "~~" ++ t ++ "~~" else t

/-- A plain text span with the given content and style flags. -/
def plain_text_span (t : String) (b i strike c : Bool) : RichTextObj :=
  { type := some "text", text := { content := some t },
    annots := { bold := b, italic := i, strikethrough := strike, code := c } }

/-- A plain unstyled text span. -/
def unstyled_span (t : String) : RichTextObj := plain_text_span t false false false false

/-- The spec's expected numbering of a contiguous numbered run: items
after an interruption are numbered `k+1`, `k+2`, .... -/
def spec_numbered_lines : Nat → List String → List String
  | _, [] => []
  | k, t :: ts => (toString (k + 1) ++ ". " ++ t) :: spec_numbered_lines (k + 1) ts

/-- A `file` block with neither location field populated. -/
def file_no_url_block : Block := { type := some "file", id := some "blk-file" }

/-- A `bookmark` block with no url. -/
def bookmark_no_url_block : Block :=
  { type := some "bookmark", id := some "blk-bm" }

/-- An `image` block with no resolvable URL and caption `"diagram"`. -/
def image_diagram_block : Block :=
  { type := some "image"
    id := some "img-1"
    image := { caption := [unstyled_span "diagram"] } }

/-- A block with the explicit `unsupported` type tag. -/
def unsupported_tag_block : Block :=
  { type := some "unsupported", id := some "blk-u" }

/-- A numbered-list-item block with plain text `t`. -/
def numbered_item_block (t : String) : Block :=
  { type := some "numbered_list_item"
    numbered_list_item := { rich_text := [unstyled_span t] } }

/-- A divider block. -/
def divider_block : Block := { type := some "divider" }

/-- A bare table block (no header flags set). -/
def table_block : Block := { type := some "table" }

/-- A table row with the single plain cell `"x"`. -/
def row1_block : Block :=
  { type := some "table_row", table_row := { cells := [[unstyled_span "x"]] } }

/-- A page graph with a back-edge: page `A` lists `B` as a child and `B`
lists `A` as a child. -/
def cyclic_client : Client :=
  { get_page := fun _ => .ok { object := some "page" }
    get_block_children := fun pid =>
      if pid = "A" then
        .ok [{ type := some "child_page", id := some "B",
               child_page := { title := some "B page" } }]
      else if pid = "B" then
        .ok [{ type := some "child_page", id := some "A",
               child_page := { title := some "A page" } }]
      else .ok []
    search_pages := .ok [] }

/-- A page graph with a DAG share (no cycle): `C` is listed as a child of
both `A` and `B`. -/
def dag_client : Client :=
  { get_page := fun _ => .ok { object := some "page" }
    get_block_children := fun pid =>
      if pid = "R" then
        .ok [{ type := some "child_page", id := some "A" },
             { type := some "child_page", id := some "B" }]
      else if pid = "A" then
        .ok [{ type := some "child_page", id := some "C" }]
      else if pid = "B" then
        .ok [{ type := some "child_page", id := some "C" }]
      else .ok []
    search_pages := .ok [] }

/-- A client whose page fetch always raises. -/
def failing_client : Client :=
  { get_page := fun _ => .error "boom"
    get_block_children := fun _ => .ok []
    search_pages := .ok [] }

/-- A client whose pages all have empty block lists. -/
def empty_page_client : Client :=
  { get_page := fun _ => .ok {}
    get_block_children := fun _ => .ok []
    search_pages := .ok [] }

/-- An exporter over `empty_page_client` whose filesystem operations all
succeed. -/
def notes_exporter : Exporter :=
  { client := empty_page_client
    output_dir := "/out"
    mkdir_ok := fun _ => true
    write_ok := fun _ => true }

/-- A childless page titled `"Notes"`. -/
def notes_leaf (pid : String) : PageNode :=
  .mk pid "Notes" (some "root") [] false true

/-- A client whose block-children fetch always raises. -/
def blocks_error_client : Client :=
  { get_page := fun _ => .ok {}
    get_block_children := fun _ => .error "netfail"
    search_pages := .ok [] }

/-- An exporter whose content fetches fail. -/
def exporter_fetch_fail : Exporter :=
  { client := blocks_error_client
    output_dir := "/out"
    mkdir_ok := fun _ => true
    write_ok := fun _ => true }

/-- An exporter whose directory creations fail. -/
def exporter_mkdir_fail : Exporter :=
  { client := empty_page_client
    output_dir := "/out"
    mkdir_ok := fun _ => false
    write_ok := fun _ => true }

/-- An exporter whose file writes fail. -/
def exporter_write_fail : Exporter :=
  { client := empty_page_client
    output_dir := "/out"
    mkdir_ok := fun _ => true
    write_ok := fun _ => false }

/-- A parent page with one child, used to exercise the with-children
branch of `export_node`. -/
def parent_docs_node : PageNode :=
  .mk "P" "Docs" none [notes_leaf "ch"] false true

/-! ## Helper lemmas -/

/-- Dropping a while-matched head never lengthens a list. -/
theorem length_dropWhile_le (p : α → Bool) :
    ∀ l : List α, (l.dropWhile p).length ≤ l.length := by
  intro l
  induction l with
  | nil => simp [List.dropWhile]
  | cons a t ih =>
    simp only [List.dropWhile]
    cases p a
    · simp
    · simp only [List.length_cons]
      exact Nat.le_succ_of_le ih

/-- A list of elements all matching `p` followed by a list whose head does
not match is split back apart by `takeWhile`. -/
theorem takeWhile_append_of_all (p : α → Bool) (l₁ l₂ : List α)
    (h₁ : ∀ a ∈ l₁, p a) (h₂ : ∀ a ∈ l₂.head?, ¬ p a) :
    (l₁ ++ l₂).takeWhile p = l₁ := by
  induction l₁ with
  | nil =>
    cases l₂ with
    | nil => rfl
    | cons b t =>
      have hb := h₂ b rfl
      simp only [List.nil_append, List.takeWhile]
      simp [hb]
  | cons a t ih =>
    simp only [List.cons_append, List.takeWhile, h₁ a (by simp)]
    simp only [List.cons.injEq, true_and]
    exact ih (fun x hx => h₁ x (by simp [hx]))

/-- The matching counterpart for `dropWhile`. -/
theorem dropWhile_append_of_all (p : α → Bool) (l₁ l₂ : List α)
    (h₁ : ∀ a ∈ l₁, p a) (h₂ : ∀ a ∈ l₂.head?, ¬ p a) :
    (l₁ ++ l₂).dropWhile p = l₂ := by
  induction l₁ with
  | nil =>
    cases l₂ with
    | nil => rfl
    | cons b t =>
      have hb := h₂ b rfl
      simp only [List.nil_append, List.dropWhile]
      simp [hb]
  | cons a t ih =>
    simp only [List.cons_append, List.dropWhile, h₁ a (by simp)]
    exact ih (fun x hx => h₁ x (by simp [hx]))


/-! ## C1: inline style nesting order -/

/-- C1.  Style markup is applied in the fixed nesting order code innermost,
then bold, then italic, then strikethrough, with any hyperlink wrapping
outermost; a span with text `"x"` and the bold and strikethrough flags set
renders exactly `~~**x**~~`; the empty span sequence renders `""`.
Determinism of the rendering is immediate: `convert_rich_text` is a pure
function of its argument. -/
theorem claim_C1_inline_style_order :
    (∀ (t : String) (b i strike c : Bool),
      convert_rich_text [plain_text_span t b i strike c] =
        spec_style_wrap b i strike c t)
    ∧ (∀ (t url : String) (b i strike c : Bool), url ≠ "" →
      convert_rich_text
        [{ plain_text_span t b i strike c with href := some url }] =
        "[" ++ spec_style_wrap b i strike c t ++ "](" ++ url ++ ")")
    ∧ convert_rich_text
        [plain_text_span "x" true false true false] = "~~**x**~~"
    ∧ convert_rich_text [] = "" := by
  refine ⟨fun t b i strike c => ?_, fun t url b i strike c hurl => ?_, rfl, rfl⟩
  · cases b <;> cases i <;> cases strike <;> cases c <;> rfl
  · have : strTruthy (some url) = true := by
      simp [strTruthy, hurl]
    cases b <;> cases i <;> cases strike <;> cases c <;>
      simp [convert_rich_text, plain_text_span, render_rich_text_obj,
        spec_style_wrap, this, String.join]

/-- Witness for C1's hypothesis-bearing conjunct at a concrete input. -/
theorem claim_C1_witness :
    ("https://e.com" : String) ≠ ""
    ∧ convert_rich_text
        [{ plain_text_span "x" true false true false with
            href := some "https://e.com" }] =
        "[" ++ spec_style_wrap true false true false "x" ++ "](https://e.com)" :=
  ⟨by decide, (claim_C1_inline_style_order.2.1) "x" "https://e.com"
    true false true false (by decide)⟩

/-! ## C7: sanitize_filename -/

/-- Right-stripping `'. '` never lengthens a character list. -/
theorem rstrip_dot_space_length_le (cs : List Char) :
    (rstrip_dot_space cs).length ≤ cs.length := by
  simp only [rstrip_dot_space, List.length_reverse]
  calc (cs.reverse.dropWhile is_dot_or_space).length
      ≤ cs.reverse.length := length_dropWhile_le _ _
    _ = cs.length := by simp

/-- C7 counterexample.  `sanitize_filename` is not idempotent: on `"\t"`
the whitespace-collapsing step turns the leading tab (which `strip('. ')`
does not remove) into a leading space, so the first pass returns `" "` and
the second pass strips it and falls back to `"Untitled"`. -/
theorem claim_C7_counterexample :
    sanitize_filename (sanitize_filename "\t") ≠ sanitize_filename "\t" := by
  decide

/-- The `if not sanitized: "Untitled"` fallback yields a nonempty string of
bounded length whenever its input is within the bound. -/
theorem sanitize_last_step (s4 : List Char) (hlen : s4.length ≤ 200) :
    (if s4.isEmpty then "Untitled" else String.mk s4) ≠ "" ∧
    (if s4.isEmpty then "Untitled" else String.mk s4).length ≤ 200 := by
  by_cases h : s4.isEmpty
  · refine ⟨by simp [h], ?_⟩
    simp [h]
    decide
  · refine ⟨?_, ?_⟩
    · simp only [h, if_neg, Bool.false_eq_true, not_false_eq_true, if_false]
      intro heq
      have hd := congrArg String.data heq
      simp only [String.data] at hd
      exact h (by simp [List.isEmpty_iff, hd])
    · simp only [h, Bool.false_eq_true, not_false_eq_true, if_false]
      exact hlen

/-- C7 as amended.  `sanitize_filename` is deterministic (it is a pure
function of its argument), never returns the empty string, and never
exceeds the bounded maximum length (200); it is, however, not idempotent
(see the counterexample). -/
theorem claim_C7_amended (name : String) :
    sanitize_filename name ≠ "" ∧ (sanitize_filename name).length ≤ 200 := by
  simp only [sanitize_filename, sanitize_filename_max]
  apply sanitize_last_step
  split
  · refine le_trans (rstrip_dot_space_length_le _) ?_
    simp [List.length_take]
  · next h => omega

/-! ## C4: missing-URL handling for image/file/bookmark -/




/-- C4 counterexample.  A `file` block with no resolvable URL yields the
bracketed placeholder with `supported = false` but records **no**
`UnsupportedFeature` — the converter state is returned unchanged, refuting
the claim that every image/file/bookmark block without a URL appends a
`"no_url"` record. -/
theorem claim_C4_counterexample :
    convert_block {} file_no_url_block none = (("[File: file]", false), {}, none)
    ∧ (convert_block {} file_no_url_block none).2.1.unsupported_features = [] := by
  decide

/-- C4 as amended.  An `image` block with no resolvable URL yields
`[Image: caption]`, `supported = false`, and appends exactly one
`UnsupportedFeature("image", "no_url", blockId)` (concretely, caption
`"diagram"` yields `[Image: diagram]`); `file` and `bookmark` blocks with
no resolvable URL yield the placeholders `[File: caption]` and
`[Bookmark]` with `supported = false` but record nothing. -/
theorem claim_C4_amended :
    (∀ (cv : ConverterState) (blk : Block) (c : Option Nat),
      blk.type = some "image" → resolve_file_url blk.image = "" →
      convert_block cv blk c =
        (("[Image: " ++ (if blk.image.caption.isEmpty then "image"
            else convert_rich_text blk.image.caption) ++ "]", false),
          add_unsupported cv "image" "no_url" (blk.id.getD "unknown"), c))
    ∧ (∀ (cv : ConverterState) (blk : Block) (c : Option Nat),
      blk.type = some "file" → resolve_file_url blk.file = "" →
      convert_block cv blk c =
        (("[File: " ++ (if blk.file.caption.isEmpty then "file"
            else convert_rich_text blk.file.caption) ++ "]", false), cv, c))
    ∧ (∀ (cv : ConverterState) (blk : Block) (c : Option Nat),
      blk.type = some "bookmark" → blk.bookmark.url.getD "" = "" →
      convert_block cv blk c = (("[Bookmark]", false), cv, c))
    ∧ convert_block {} image_diagram_block none =
        (("[Image: diagram]", false),
         { unsupported_features := [⟨"image", "no_url", "img-1"⟩] }, none) := by
  refine ⟨?_, ?_, ?_, by decide⟩
  · intro cv blk c hty hurl
    simp [convert_block, hty, hurl]
  · intro cv blk c hty hurl
    simp [convert_block, hty, hurl]
  · intro cv blk c hty hurl
    simp [convert_block, hty, hurl]

/-- Witness for C4's hypothesis-bearing conjuncts at concrete inputs. -/
theorem claim_C4_witness :
    convert_block {} image_diagram_block none =
      (("[Image: diagram]", false),
        add_unsupported {} "image" "no_url" "img-1", none)
    ∧ convert_block {} file_no_url_block none = (("[File: file]", false), {}, none)
    ∧ convert_block {} bookmark_no_url_block none = (("[Bookmark]", false), {}, none) := by
  refine ⟨?_, ?_, ?_⟩
  · exact claim_C4_amended.1 {} _ none rfl rfl
  · exact claim_C4_amended.2.1 {} file_no_url_block none rfl rfl
  · exact claim_C4_amended.2.2.1 {} bookmark_no_url_block none rfl rfl

/-! ## C8: unrecognised and explicitly-unsupported block types -/


/-- C8 counterexample.  For a block with the explicit `unsupported` tag the
recorded `UnsupportedFeature` has feature `"unknown"`, not
`"unknown_type"` (and the fragment is `[Unsupported block]`, which does
not embed the tag). -/
theorem claim_C8_counterexample :
    (convert_block {} unsupported_tag_block none).2.1.unsupported_features =
      [⟨"unsupported", "unknown", "blk-u"⟩]
    ∧ ∀ r ∈ (convert_block {} unsupported_tag_block none).2.1.unsupported_features,
        r.feature ≠ "unknown_type" := by
  decide

/-- C8 as amended.  A block whose type tag is not one of the recognised
tags yields the bracketed placeholder `[Unsupported: tag]` naming the tag,
with `supported = false`, and appends one `UnsupportedFeature` whose
feature field is `"unknown_type"`; a block with the **explicit**
`unsupported` tag instead yields `[Unsupported block]` with
`supported = false` and appends one record whose feature field is
`"unknown"`. -/
theorem claim_C8_amended :
    (∀ (cv : ConverterState) (blk : Block) (c : Option Nat) (t : String),
      blk.type = some t → t ∉ known_block_types →
      convert_block cv blk c =
        (("[Unsupported: " ++ t ++ "]", false),
          add_unsupported cv t "unknown_type" (blk.id.getD "unknown"), c))
    ∧ (∀ (cv : ConverterState) (blk : Block) (c : Option Nat),
      blk.type = some "unsupported" →
      convert_block cv blk c =
        (("[Unsupported block]", false),
          add_unsupported cv "unsupported" "unknown" (blk.id.getD "unknown"), c)) := by
  constructor
  · intro cv blk c t hty ht
    simp only [known_block_types, List.mem_cons, List.not_mem_nil, or_false,
      not_or] at ht
    obtain ⟨n1, n2, n3, n4, n5, n6, n7, n8, n9, n10, n11, n12, n13, n14, n15,
      n16, n17, n18, n19, n20, n21⟩ := ht
    simp [convert_block, hty, n1, n2, n3, n4, n5, n6, n7, n8, n9, n10, n11,
      n12, n13, n14, n15, n16, n17, n18, n19, n20, n21]
  · intro cv blk c hty
    simp [convert_block, hty]

/-- Witness for C8 at concrete inputs: the unrecognised tag `"weird"` and
the explicit `unsupported` tag. -/
theorem claim_C8_witness :
    ("weird" : String) ∉ known_block_types
    ∧ convert_block {} { type := some "weird", id := some "blk-w" } none =
        (("[Unsupported: weird]", false),
          add_unsupported {} "weird" "unknown_type" "blk-w", none)
    ∧ convert_block {} unsupported_tag_block none =
        (("[Unsupported block]", false),
          add_unsupported {} "unsupported" "unknown" "blk-u", none) :=
  ⟨by decide,
   claim_C8_amended.1 {} _ none "weird" rfl (by decide),
   claim_C8_amended.2 {} unsupported_tag_block none rfl⟩

/-! ## C2 and C3: the block-sequence assembler -/

/-- The loop of `convert_blocks` does not depend on the exact fuel value
as long as it covers the list length (the loop consumes at least one block
per iteration). -/
theorem convert_blocks_go_fuel_inv :
    ∀ (n : Nat) (l : List Block), l.length ≤ n →
    ∀ (fuel fuel' : Nat) (cv : ConverterState) (c : Option Nat),
      l.length ≤ fuel → l.length ≤ fuel' →
      convert_blocks_go fuel cv l c = convert_blocks_go fuel' cv l c := by
  intro n
  induction n with
  | zero =>
    intro l hl fuel fuel' cv c h1 h2
    have : l = [] := List.length_eq_zero.mp (Nat.le_zero.mp hl)
    subst this
    cases fuel <;> cases fuel' <;> rfl
  | succ n ih =>
    intro l hl fuel fuel' cv c h1 h2
    cases l with
    | nil => cases fuel <;> cases fuel' <;> rfl
    | cons b rest =>
      simp only [List.length_cons] at hl h1 h2
      cases fuel with
      | zero => omega
      | succ f =>
        cases fuel' with
        | zero => omega
        | succ f' =>
          simp only [convert_blocks_go]
          by_cases ht : b.type = some "table"
          · simp only [ht, if_pos]
            have hdrop :
                (rest.dropWhile (fun x => x.type == some "table_row")).length ≤
                  rest.length := length_dropWhile_le _ _
            rw [ih (rest.dropWhile (fun x => x.type == some "table_row"))
              (by omega) f f' cv none (by omega) (by omega)]
          · simp only [ht, if_neg, if_false]
            rw [ih rest (by omega) f f'
              (convert_block cv b
                (if b.type ≠ some "numbered_list_item" then none else c)).2.1
              (convert_block cv b
                (if b.type ≠ some "numbered_list_item" then none else c)).2.2
              (by omega) (by omega)]





/-- Rendering a single unstyled plain text span is the identity. -/
theorem convert_rich_text_unstyled (t : String) :
    convert_rich_text [unstyled_span t] = t := rfl

/-- A string containing `". "` is never empty. -/
theorem append_dot_ne_empty (a b : String) : a ++ ". " ++ b ≠ "" := by
  intro h
  have h2 := congrArg String.length h
  rw [String.length_append, String.length_append] at h2
  have hd : (". " : String).length = 2 := rfl
  have he : ("" : String).length = 0 := rfl
  rw [hd, he] at h2
  omega

/-- Processing a contiguous run of numbered items: each item is rendered
with the next counter value, the emitted numbers continue from the
incoming counter (absent counter = start at 1), and the loop continues on
the remaining blocks with the counter advanced by the run length. -/
theorem numbered_run_go (ts : List String) :
    ∀ (fuel : Nat) (cv : ConverterState) (rest : List Block) (c : Option Nat),
      ts.length + rest.length ≤ fuel →
      convert_blocks_go fuel cv (ts.map numbered_item_block ++ rest) c =
        (spec_numbered_lines (c.getD 0) ts ++
          (convert_blocks_go (fuel - ts.length) cv rest
            (if ts.isEmpty then c else some (c.getD 0 + ts.length))).1,
         (convert_blocks_go (fuel - ts.length) cv rest
            (if ts.isEmpty then c else some (c.getD 0 + ts.length))).2) := by
  induction ts with
  | nil =>
    intro fuel cv rest c hfuel
    simp [spec_numbered_lines]
  | cons t ts ih =>
    intro fuel cv rest c hfuel
    simp only [List.length_cons, List.map_cons, List.cons_append] at hfuel ⊢
    cases fuel with
    | zero => omega
    | succ f =>
      simp only [convert_blocks_go]
      have hnt : (numbered_item_block t).type = some "table" ↔ False := by
        simp [numbered_item_block]
      rw [if_neg (by simp [numbered_item_block])]
      have hkeep :
          (if (numbered_item_block t).type ≠ some "numbered_list_item" then none
            else c) = c := by
        simp [numbered_item_block]
      rw [hkeep]
      have hstep : convert_block cv (numbered_item_block t) c =
          ((toString (c.getD 0 + 1) ++ ". " ++ t, true), cv,
            some (c.getD 0 + 1)) := by
        cases c <;> simp [convert_block, numbered_item_block,
          convert_numbered_list_item, convert_rich_text_unstyled]
      rw [hstep]
      simp only
      rw [ih f cv rest (some (c.getD 0 + 1)) (by omega)]
      rw [if_neg (append_dot_ne_empty (toString (c.getD 0 + 1)) t)]
      cases hts : ts.isEmpty
      · simp only [hts, Bool.false_eq_true, if_false, spec_numbered_lines,
          Option.getD_some, List.cons_append, List.nil_append,
          List.isEmpty_cons, Nat.succ_sub_succ]
        have harith : c.getD 0 + 1 + ts.length = c.getD 0 + (ts.length + 1) := by
          omega
        rw [harith]
      · have h0 : ts = [] := List.isEmpty_iff.mp hts
        subst h0
        simp [spec_numbered_lines, Nat.succ_sub_succ]

/-- The loop yields nothing on an exhausted block list, for any fuel. -/
theorem convert_blocks_go_nil (fuel : Nat) (cv : ConverterState) (c : Option Nat) :
    convert_blocks_go fuel cv [] c = ([], cv) := by
  cases fuel <;> rfl

/-- `convert_block` leaves the counter dictionary unchanged on every block
that is not a numbered list item (only the `numbered_list_item` branch
writes the `"numbered"` key). -/
theorem convert_block_counter (cv : ConverterState) (b : Block) (c : Option Nat)
    (h : b.type ≠ some "numbered_list_item") :
    (convert_block cv b c).2.2 = c := by
  rcases hb : b.type with _ | t
  · simp [convert_block, hb]
  · by_cases hkt : t ∈ known_block_types
    · fin_cases hkt <;>
        first
          | exact absurd hb h
          | (simp [convert_block, hb]
             try split_ifs <;> rfl)
    · simp only [known_block_types, List.mem_cons, List.not_mem_nil, or_false,
        not_or] at hkt
      obtain ⟨n1, n2, n3, n4, n5, n6, n7, n8, n9, n10, n11, n12, n13, n14, n15,
        n16, n17, n18, n19, n20, n21⟩ := hkt
      simp [convert_block, hb, n1, n2, n3, n4, n5, n6, n7, n8, n9, n10, n11,
        n12, n13, n14, n15, n16, n17, n18, n19, n20, n21]

/-- A bare run of numbered items renders to the numbered lines `1.` .. `K.`
and leaves the converter state unchanged, for any sufficient fuel. -/
theorem run_to_lines (us : List String) (fuel : Nat) (cv : ConverterState)
    (hfuel : us.length ≤ fuel) :
    convert_blocks_go fuel cv (us.map numbered_item_block) none =
      (spec_numbered_lines 0 us, cv) := by
  have h := numbered_run_go us fuel cv [] none (by simpa)
  rw [List.append_nil] at h
  rw [h, convert_blocks_go_nil]
  simp

/-- The head of a mapped numbered run is never a table row. -/
theorem numbered_head_not_row (us : List String) :
    ∀ a ∈ (us.map numbered_item_block).head?,
      ¬ ((fun x => x.type == some "table_row") a = true) := by
  intro a ha
  cases us with
  | nil => simp at ha
  | cons u ur =>
    simp only [List.map_cons, List.head?_cons, Option.mem_def,
      Option.some.injEq] at ha
    subst ha
    simp [numbered_item_block]

/-- C2.  In any sibling sequence, a run of K consecutive numbered list
items is emitted with prefixes exactly `1.` .. `K.` in order, and **any**
interrupting block of a different type resets the counter so the next run
restarts at 1: (1) for an arbitrary interrupter `b` that is neither a
numbered item nor a table, the second run restarts at 1 around `b`'s own
fragment (omitted when empty) and state effect; (2) for an arbitrary
table interrupter together with any run of its following rows, the second
run likewise restarts at 1 after the grouped table fragment; (3) the
concrete table scenario.  The counter lives in the caller-supplied
dictionary threaded through `convert_blocks_go`, not in the blocks, which
are arbitrary here. -/
theorem claim_C2_numbering :
    (∀ (cv : ConverterState) (ts us : List String) (b : Block),
      b.type ≠ some "numbered_list_item" → b.type ≠ some "table" →
      convert_blocks cv
        (ts.map numbered_item_block ++ b :: us.map numbered_item_block) =
        (String.intercalate "\n\n"
          (spec_numbered_lines 0 ts ++
            (if (convert_block cv b none).1.1 = "" then []
              else [(convert_block cv b none).1.1]) ++
            spec_numbered_lines 0 us),
         (convert_block cv b none).2.1))
    ∧ (∀ (cv : ConverterState) (ts us : List String) (b : Block)
        (rows : List Block),
      b.type = some "table" → (∀ r ∈ rows, r.type = some "table_row") →
      convert_blocks cv
        (ts.map numbered_item_block ++
          b :: (rows ++ us.map numbered_item_block)) =
        (String.intercalate "\n\n"
          (spec_numbered_lines 0 ts ++
            (if convert_table b rows = "" then [] else [convert_table b rows]) ++
            spec_numbered_lines 0 us),
         cv))
    ∧ convert_blocks {} [numbered_item_block "a", numbered_item_block "b",
        table_block, row1_block, numbered_item_block "c"] =
      ("1. a\n\n2. b\n\n| Column 1 |\n|---|\n| x |\n\n1. c", {}) := by
  refine ⟨?_, ?_, by decide⟩
  · intro cv ts us b hnum htab
    simp only [convert_blocks]
    have hlen : (ts.map numbered_item_block ++
        b :: us.map numbered_item_block).length =
        ts.length + (us.length + 1) := by
      simp
    rw [hlen]
    rw [numbered_run_go ts (ts.length + (us.length + 1)) cv
      (b :: us.map numbered_item_block) none (by simp)]
    rw [Nat.add_sub_cancel_left]
    have hstep :
        ∀ c' : Option Nat,
          convert_blocks_go (us.length + 1) cv
            (b :: us.map numbered_item_block) c' =
          ((if (convert_block cv b none).1.1 = "" then []
              else [(convert_block cv b none).1.1]) ++
            spec_numbered_lines 0 us,
           (convert_block cv b none).2.1) := by
      intro c'
      simp only [convert_blocks_go]
      rw [if_neg htab]
      have hpop : (if b.type ≠ some "numbered_list_item" then none else c') =
          none := by
        simp [hnum]
      rw [hpop]
      rw [convert_block_counter cv b none hnum]
      rw [run_to_lines us us.length (convert_block cv b none).2.1 le_rfl]
    rw [hstep]
    simp [List.append_assoc]
  · intro cv ts us b rows htab hrows
    simp only [convert_blocks]
    have hlen : (ts.map numbered_item_block ++
        b :: (rows ++ us.map numbered_item_block)).length =
        ts.length + (rows.length + us.length + 1) := by
      simp
    rw [hlen]
    rw [numbered_run_go ts (ts.length + (rows.length + us.length + 1)) cv
      (b :: (rows ++ us.map numbered_item_block)) none (by simp)]
    rw [Nat.add_sub_cancel_left]
    have hstep :
        ∀ c' : Option Nat,
          convert_blocks_go (rows.length + us.length + 1) cv
            (b :: (rows ++ us.map numbered_item_block)) c' =
          ((if convert_table b rows = "" then [] else [convert_table b rows]) ++
            spec_numbered_lines 0 us, cv) := by
      intro c'
      simp only [convert_blocks_go]
      rw [if_pos htab]
      rw [takeWhile_append_of_all (fun x => x.type == some "table_row") rows
        (us.map numbered_item_block) (fun a ha => by simp [hrows a ha])
        (numbered_head_not_row us)]
      rw [dropWhile_append_of_all (fun x => x.type == some "table_row") rows
        (us.map numbered_item_block) (fun a ha => by simp [hrows a ha])
        (numbered_head_not_row us)]
      rw [run_to_lines us (rows.length + us.length) cv (by omega)]
    rw [hstep]
    simp [List.append_assoc]

/-- Witness for C2's hypothesis-bearing conjuncts at concrete inputs: a
divider interrupter and a table interrupter with one row. -/
theorem claim_C2_witness :
    (divider_block.type ≠ some "numbered_list_item"
      ∧ divider_block.type ≠ some "table"
      ∧ convert_blocks {}
          ([numbered_item_block "a"] ++
            divider_block :: [numbered_item_block "c"]) =
        (String.intercalate "\n\n"
          (spec_numbered_lines 0 ["a"] ++
            (if (convert_block {} divider_block none).1.1 = "" then []
              else [(convert_block {} divider_block none).1.1]) ++
            spec_numbered_lines 0 ["c"]),
         (convert_block {} divider_block none).2.1))
    ∧ (table_block.type = some "table"
      ∧ (∀ r ∈ [row1_block], r.type = some "table_row")
      ∧ convert_blocks {}
          ([numbered_item_block "a"] ++
            table_block :: ([row1_block] ++ [numbered_item_block "c"])) =
        (String.intercalate "\n\n"
          (spec_numbered_lines 0 ["a"] ++
            (if convert_table table_block [row1_block] = "" then []
              else [convert_table table_block [row1_block]]) ++
            spec_numbered_lines 0 ["c"]),
         {})) :=
  ⟨⟨by decide, by decide,
    claim_C2_numbering.1 {} ["a"] ["c"] divider_block (by decide) (by decide)⟩,
   ⟨rfl, by decide,
    claim_C2_numbering.2.1 {} ["a"] ["c"] table_block [row1_block] rfl
      (by decide)⟩⟩

/-- C3.  When a table block is immediately followed by N table-row blocks,
the assembler consumes exactly those N rows into one grouped table
fragment (omitted when empty) and resumes scanning at the first block
after them, with the numbered counter cleared; none of the consumed rows
is converted again as a standalone block. -/
theorem claim_C3_table_consumption (cv : ConverterState) (t : Block)
    (rows rest : List Block) (c : Option Nat)
    (ht : t.type = some "table")
    (hrows : ∀ b ∈ rows, b.type = some "table_row")
    (hrest : ∀ b ∈ rest.head?, b.type ≠ some "table_row") :
    convert_blocks_go (t :: (rows ++ rest)).length cv (t :: (rows ++ rest)) c =
      ((if convert_table t rows = "" then [] else [convert_table t rows]) ++
        (convert_blocks_go rest.length cv rest none).1,
       (convert_blocks_go rest.length cv rest none).2) := by
  simp only [List.length_cons, convert_blocks_go]
  rw [if_pos ht]
  have htake : (rows ++ rest).takeWhile (fun b => b.type == some "table_row") =
      rows :=
    takeWhile_append_of_all _ rows rest
      (fun a ha => by simp [hrows a ha])
      (fun a ha => by simp [hrest a ha])
  have hdrop : (rows ++ rest).dropWhile (fun b => b.type == some "table_row") =
      rest :=
    dropWhile_append_of_all _ rows rest
      (fun a ha => by simp [hrows a ha])
      (fun a ha => by simp [hrest a ha])
  rw [htake, hdrop]
  rw [convert_blocks_go_fuel_inv (rows ++ rest).length rest (by simp)
    (rows ++ rest).length rest.length cv none (by simp) (by simp)]

/-- Witness for C3 at a concrete input: a table with two following rows
and a trailing divider; the scan resumes exactly at the divider. -/
theorem claim_C3_witness :
    table_block.type = some "table"
    ∧ (∀ b ∈ [row1_block, row1_block], b.type = some "table_row")
    ∧ (∀ b ∈ ([divider_block] : List Block).head?, b.type ≠ some "table_row")
    ∧ convert_blocks_go
        (table_block :: ([row1_block, row1_block] ++ [divider_block])).length {}
        (table_block :: ([row1_block, row1_block] ++ [divider_block])) none =
      ((if convert_table table_block [row1_block, row1_block] = "" then []
          else [convert_table table_block [row1_block, row1_block]]) ++
        (convert_blocks_go [divider_block].length {} [divider_block] none).1,
       (convert_blocks_go [divider_block].length {} [divider_block] none).2) :=
  ⟨rfl, by decide, by decide,
    claim_C3_table_consumption {} table_block [row1_block, row1_block]
      [divider_block] none rfl (by decide) (by decide)⟩

/-! ## C5 and C9: hierarchy traversal invariants -/

/-- `idsList` distributes over list append. -/
theorem idsList_append (l1 l2 : List PageNode) :
    PageNode.idsList (l1 ++ l2) = PageNode.idsList l1 ++ PageNode.idsList l2 := by
  induction l1 with
  | nil => simp [PageNode.idsList]
  | cons a rest ih => simp [PageNode.idsList, ih]

/-- Identifiers of a member tree occur in the forest's identifier list. -/
theorem mem_idsList_of_mem {c : PageNode} :
    ∀ {l : List PageNode}, c ∈ l → ∀ x ∈ c.ids, x ∈ PageNode.idsList l := by
  intro l hc x hx
  induction l with
  | nil => cases hc
  | cons a rest ih =>
    simp only [PageNode.idsList, List.mem_append]
    rcases List.mem_cons.mp hc with h | h
    · exact Or.inl (h ▸ hx)
    · exact Or.inr (ih h)

/-- A member of a forest with duplicate-free identifier list itself has a
duplicate-free identifier list. -/
theorem nodup_of_mem_idsList :
    ∀ {l : List PageNode}, (PageNode.idsList l).Nodup →
      ∀ {c : PageNode}, c ∈ l → c.ids.Nodup := by
  intro l hl c hc
  induction l with
  | nil => cases hc
  | cons a rest ih =>
    simp only [PageNode.idsList] at hl
    rcases List.mem_cons.mp hc with h | h
    · exact h ▸ hl.of_append_left
    · exact ih hl.of_append_right h

/-- The invariant carried by the child loop of the tree builder, assuming
the recursive call `bt` satisfies the tree invariant: the visited set only
grows, the identifiers collected over all built children are pairwise
distinct, and each of them is new relative to the incoming visited set and
recorded in the outgoing one. -/
theorem build_children_inv
    (bt : String → List String → Option PageNode × List String)
    (hbt : ∀ cid v, (∀ x ∈ v, x ∈ (bt cid v).2) ∧
      ∀ node, (bt cid v).1 = some node →
        node.ids.Nodup ∧ ∀ x ∈ node.ids, x ∉ v ∧ x ∈ (bt cid v).2) :
    ∀ (blocks : List Block) (visited : List String),
      (∀ x ∈ visited, x ∈ (build_page_tree_children bt blocks visited).2) ∧
      (PageNode.idsList (build_page_tree_children bt blocks visited).1).Nodup ∧
      ∀ x ∈ PageNode.idsList (build_page_tree_children bt blocks visited).1,
        x ∉ visited ∧ x ∈ (build_page_tree_children bt blocks visited).2 := by
  intro blocks
  induction blocks with
  | nil =>
    intro visited
    refine ⟨fun x hx => hx, by simp [PageNode.idsList], ?_⟩
    intro x hx
    simp [build_page_tree_children, PageNode.idsList] at hx
  | cons b rest ih =>
    intro visited
    simp only [build_page_tree_children]
    obtain ⟨hgrow, hnode⟩ := hbt (b.id.getD "unknown") visited
    obtain ⟨hgrow', hnodup', hmem'⟩ :=
      ih (bt (b.id.getD "unknown") visited).2
    refine ⟨fun x hx => hgrow' x (hgrow x hx), ?_, ?_⟩
    · rw [idsList_append]
      cases hr : (bt (b.id.getD "unknown") visited).1 with
      | none => simpa [PageNode.idsList] using hnodup'
      | some n =>
        obtain ⟨hn_nodup, hn_mem⟩ := hnode n hr
        simp only [PageNode.idsList, List.append_nil]
        refine List.Nodup.append (by simpa using hn_nodup) hnodup' ?_
        intro y hy hy'
        exact (hmem' y hy').1 ((hn_mem y (by simpa using hy)).2)
    · intro x hx
      rw [idsList_append] at hx
      rcases List.mem_append.mp hx with hx | hx
      · cases hr : (bt (b.id.getD "unknown") visited).1 with
        | none => rw [hr] at hx; simp [PageNode.idsList] at hx
        | some n =>
          rw [hr] at hx
          simp only [PageNode.idsList, List.append_nil] at hx
          obtain ⟨hn_nodup, hn_mem⟩ := hnode n hr
          exact ⟨(hn_mem x hx).1, hgrow' x (hn_mem x hx).2⟩
      · exact ⟨fun hv => (hmem' x hx).1 (hgrow x hv), (hmem' x hx).2⟩

/-- The tree-builder invariant, by induction on the remaining depth: the
visited set only grows, and a successfully built tree carries pairwise
distinct identifiers, all of them new relative to the incoming visited set
and recorded in the outgoing one. -/
theorem build_tree_inv (client : Client) :
    ∀ (fuel : Nat) (pid : String) (parent : Option String)
      (visited : List String),
      (∀ x ∈ visited, x ∈ (build_page_tree_go client fuel pid parent visited).2) ∧
      ∀ node, (build_page_tree_go client fuel pid parent visited).1 = some node →
        node.ids.Nodup ∧ ∀ x ∈ node.ids,
          x ∉ visited ∧ x ∈ (build_page_tree_go client fuel pid parent visited).2 := by
  intro fuel
  induction fuel with
  | zero =>
    intro pid parent visited
    by_cases hv : pid ∈ visited <;>
      simp [build_page_tree_go, hv]
  | succ n ih =>
    intro pid parent visited
    by_cases hv : pid ∈ visited
    · simp [build_page_tree_go, hv]
    · simp only [build_page_tree_go, hv, if_false]
      cases hgp : client.get_page pid with
      | error e =>
        simp only [hgp]
        exact ⟨fun x hx => by simp [hx], by simp⟩
      | ok page =>
        simp only [hgp]
        obtain ⟨hgrow, hnodup, hmem⟩ :=
          build_children_inv
            (fun child_id v => build_page_tree_go client n child_id (some pid) v)
            (fun cid v => ih cid (some pid) v)
            (discover_child_pages client pid) (pid :: visited)
        constructor
        · intro x hx
          exact hgrow x (by simp [hx])
        · intro node hnode
          obtain rfl := Option.some.inj hnode
          constructor
          · rw [PageNode.ids, List.nodup_cons]
            refine ⟨fun hpid => ?_, hnodup⟩
            exact (hmem pid hpid).1 (by simp)
          · intro x hx
            rw [PageNode.ids, List.mem_cons] at hx
            rcases hx with rfl | hx
            · exact ⟨hv, hgrow x (by simp)⟩
            · exact ⟨fun hxv => (hmem x hx).1 (by simp [hxv]), (hmem x hx).2⟩

/-- A tree whose identifier list is duplicate-free has no identifier
repeated along any root-to-descendant path (strong induction on size). -/
theorem noPathRepeat_of_nodup_ids :
    ∀ (k : Nat) (n : PageNode), sizeOf n ≤ k → n.ids.Nodup →
      ∀ seen : List String, (∀ x ∈ seen, x ∉ n.ids) →
        n.noPathRepeat seen := by
  intro k
  induction k with
  | zero =>
    intro n hs
    cases n with
    | mk pid title parent cs db hc =>
      simp [PageNode.mk.sizeOf_spec] at hs
  | succ k ih =>
    intro n hs hnodup seen hseen
    cases n with
    | mk pid title parent cs db hc =>
      simp only [PageNode.noPathRepeat]
      constructor
      · intro hmem
        exact hseen pid hmem (by simp [PageNode.ids])
      · intro c hcmem
        have hsz : sizeOf c ≤ k := by
          have h1 : sizeOf c < sizeOf cs := List.sizeOf_lt_of_mem hcmem
          have h2 : sizeOf cs < sizeOf (PageNode.mk pid title parent cs db hc) := by
            simp [PageNode.mk.sizeOf_spec]
            omega
          omega
        simp only [PageNode.ids, List.nodup_cons] at hnodup
        refine ih c hsz (nodup_of_mem_idsList hnodup.2 hcmem) (pid :: seen) ?_
        intro x hx hxc
        rcases List.mem_cons.mp hx with rfl | hx
        · exact hnodup.1 (mem_idsList_of_mem hcmem x hxc)
        · exact hseen x hx (by
            simp only [PageNode.ids, List.mem_cons]
            exact Or.inr (mem_idsList_of_mem hcmem x hxc))

/-- C5.  `build_page_tree` is a total function (its Lean translation
terminates by construction on every input: the remaining depth
`max_depth - depth` strictly decreases through every recursive call,
exactly mirroring the source's depth bound), in particular on page graphs
with back-edges; and whenever it returns a tree, no page identifier
appears more than once on any path from the root of that tree to a
descendant. -/
theorem claim_C5_cycle_safety (client : Client) (page_id : String)
    (parent_id : Option String) (visited : List String)
    (depth max_depth : Nat) (node : PageNode) (v' : List String)
    (h : build_page_tree client page_id parent_id visited depth max_depth =
      (some node, v')) :
    node.noPathRepeat [] := by
  have h1 : (build_page_tree_go client (max_depth - depth) page_id parent_id
      visited).1 = some node := by
    rw [build_page_tree] at h
    rw [h]
  have hnodup :=
    ((build_tree_inv client (max_depth - depth) page_id parent_id visited).2
      node h1).1
  exact noPathRepeat_of_nodup_ids (sizeOf node) node le_rfl hnodup []
    (by intro x hx; cases hx)


/-- Witness for C5: on the back-edge graph `A → B → A` discovery
terminates and returns the tree `A ── B` (the repeated `A` is dropped). -/
theorem claim_C5_witness :
    build_page_tree cyclic_client "A" none [] 0 10 =
      (some (PageNode.mk "A" "Untitled" none
        [PageNode.mk "B" "Untitled" (some "A") [] false true] false true),
       ["B", "A"])
    ∧ (PageNode.mk "A" "Untitled" none
        [PageNode.mk "B" "Untitled" (some "A") [] false true]
        false true).noPathRepeat [] :=
  ⟨rfl, claim_C5_cycle_safety cyclic_client "A" none [] 0 10 _ ["B", "A"] rfl⟩



/-- C9.  (1) Every tree returned by `build_page_tree` labels each page
identifier on at most one node (so a page reachable from two parents is
attached only at its first-encountered position and the later occurrence
is dropped); (2) a page already in the shared visited set is never
re-fetched — the call returns no node and leaves the set unchanged; (3) a
page whose fetch fails stays in the visited set even though no node is
returned, so it is never retried within the same build. -/
theorem claim_C9_unique_ids :
    (∀ (client : Client) (page_id : String) (parent_id : Option String)
      (visited : List String) (depth max_depth : Nat) (node : PageNode)
      (v' : List String),
      build_page_tree client page_id parent_id visited depth max_depth =
        (some node, v') → node.ids.Nodup)
    ∧ (∀ (client : Client) (page_id : String) (parent_id : Option String)
      (visited : List String) (depth max_depth : Nat),
      page_id ∈ visited →
      build_page_tree client page_id parent_id visited depth max_depth =
        (none, visited))
    ∧ (∀ (client : Client) (page_id : String) (parent_id : Option String)
      (visited : List String) (depth max_depth : Nat) (e : String),
      page_id ∉ visited → depth < max_depth →
      client.get_page page_id = .error e →
      build_page_tree client page_id parent_id visited depth max_depth =
        (none, page_id :: visited)) := by
  refine ⟨?_, ?_, ?_⟩
  · intro client page_id parent_id visited depth max_depth node v' h
    have h1 : (build_page_tree_go client (max_depth - depth) page_id parent_id
        visited).1 = some node := by
      rw [build_page_tree] at h
      rw [h]
    exact ((build_tree_inv client (max_depth - depth) page_id parent_id
      visited).2 node h1).1
  · intro client page_id parent_id visited depth max_depth h
    cases hf : max_depth - depth <;>
      simp [build_page_tree, build_page_tree_go, h, hf]
  · intro client page_id parent_id visited depth max_depth e hv hd herr
    have hf : max_depth - depth = (max_depth - depth - 1) + 1 := by omega
    rw [build_page_tree, hf]
    simp [build_page_tree_go, hv, herr]

/-- Witness for C9 at concrete inputs: the DAG-share graph (the shared
child `C` is attached only under `A`, its first-encountered parent), a
repeated identifier, and a failing fetch. -/
theorem claim_C9_witness :
    (build_page_tree dag_client "R" none [] 0 10 =
      (some (PageNode.mk "R" "Untitled" none
        [PageNode.mk "A" "Untitled" (some "R")
          [PageNode.mk "C" "Untitled" (some "A") [] false true] false true,
         PageNode.mk "B" "Untitled" (some "R") [] false true] false true),
       ["B", "C", "A", "R"])
     ∧ (PageNode.mk "R" "Untitled" none
        [PageNode.mk "A" "Untitled" (some "R")
          [PageNode.mk "C" "Untitled" (some "A") [] false true] false true,
         PageNode.mk "B" "Untitled" (some "R") [] false true]
         false true).ids.Nodup)
    ∧ build_page_tree cyclic_client "A" none ["A"] 3 10 = (none, ["A"])
    ∧ build_page_tree failing_client "X" none [] 0 10 = (none, ["X"]) :=
  ⟨⟨rfl, claim_C9_unique_ids.1 dag_client "R" none [] 0 10 _ ["B", "C", "A", "R"]
      rfl⟩,
   claim_C9_unique_ids.2.1 cyclic_client "A" none ["A"] 3 10 (by decide),
   claim_C9_unique_ids.2.2 failing_client "X" none [] 0 10 "boom" (by decide)
     (by decide) rfl⟩

/-! ## C6: leaf filename collision resolution -/




/-- C6.  A childless node's leaf filename is the sanitized title plus the
extension; a numeric suffix is appended only when that name already exists
on the destination filesystem, in which case the first fresh `_k` suffix
is used (shown here for `_1`); and exporting two childless siblings whose
titles both sanitize to `Notes` into the same directory produces
`Notes.md` and then `Notes_1.md` — the second collision is against the
file created earlier in the same run, while a pre-existing `Notes.md`
triggers the same suffixing (both are membership in the one filesystem
list `fs` that `write_file` extends and `make_unique_filename` consults). -/
theorem claim_C6_unique_filenames :
    (∀ (fs : List String) (base_path name extension : String),
      (base_path ++ "/" ++ sanitize_filename name ++ extension) ∉ fs →
      make_unique_filename fs base_path name extension =
        base_path ++ "/" ++ sanitize_filename name ++ extension)
    ∧ (∀ (fs : List String) (base_path name extension : String),
      (base_path ++ "/" ++ sanitize_filename name ++ extension) ∈ fs →
      suffixed_path base_path (sanitize_filename name) 1 extension ∉ fs →
      make_unique_filename fs base_path name extension =
        suffixed_path base_path (sanitize_filename name) 1 extension)
    ∧ (export_node_children notes_exporter [notes_leaf "p1", notes_leaf "p2"]
        "/out" (init_exp_state false [])).fs =
      ["/out/Notes_1.md", "/out/Notes.md"]
    ∧ (export_node notes_exporter (notes_leaf "p1") "/out"
        (init_exp_state false ["/out/Notes.md"])).2.fs =
      ["/out/Notes_1.md", "/out/Notes.md"] := by
  refine ⟨?_, ?_, rfl, rfl⟩
  · intro fs base_path name extension h
    simp [make_unique_filename, h]
  · intro fs base_path name extension h1 h2
    simp [make_unique_filename, h1, make_unique_loop, h2]

/-- Witness for C6's hypothesis-bearing conjuncts at concrete inputs. -/
theorem claim_C6_witness :
    (("/out/Notes.md" : String) ∉ ([] : List String)
      ∧ make_unique_filename [] "/out" "Notes" ".md" = "/out/Notes.md")
    ∧ (("/out/Notes.md" : String) ∈ ["/out/Notes.md"]
      ∧ suffixed_path "/out" "Notes" 1 ".md" ∉ ["/out/Notes.md"]
      ∧ make_unique_filename ["/out/Notes.md"] "/out" "Notes" ".md" =
          suffixed_path "/out" (sanitize_filename "Notes") 1 ".md") :=
  ⟨⟨by decide, claim_C6_unique_filenames.1 [] "/out" "Notes" ".md" (by decide)⟩,
   ⟨by decide, by decide,
    claim_C6_unique_filenames.2.1 ["/out/Notes.md"] "/out" "Notes" ".md"
      (by decide) (by decide)⟩⟩

/-! ## C10: failures on a node with children skip its whole subtree -/

/-- `create_directory` never touches the error list or the page/file
counters, in any of its branches. -/
theorem create_directory_stats (E : Exporter) (st : ExpState) (path : String) :
    (create_directory E st path).2.stats.errors = st.stats.errors
    ∧ (create_directory E st path).2.stats.pages_exported =
        st.stats.pages_exported
    ∧ (create_directory E st path).2.stats.pages_failed = st.stats.pages_failed
    ∧ (create_directory E st path).2.stats.files_created =
        st.stats.files_created := by
  simp only [create_directory]
  split_ifs <;> simp

/-- C10.  During export of a node that has children: (1) a content-fetch
failure, (2) a directory-creation failure, and (3) an `index.md` write
failure each record exactly one error for that page, bump the failure
counter once, leave the exported-pages counter (and for 1-2 the whole
remaining state) untouched, and return `false` without visiting any of
the node's descendants; and (4) the sibling loop continues with the next
sibling regardless of the previous sibling's result. -/
theorem claim_C10_subtree_skip :
    (∀ (E : Exporter) (pid title : String) (par : Option String)
      (c : PageNode) (cs : List PageNode) (db hc : Bool)
      (parent_path : String) (st : ExpState) (e : String),
      E.client.get_block_children pid = .error e →
      export_node E (.mk pid title par (c :: cs) db hc) parent_path st =
        (false, { st with stats := st.stats.add_error pid e }))
    ∧ (∀ (E : Exporter) (pid title : String) (par : Option String)
      (c : PageNode) (cs : List PageNode) (db hc : Bool)
      (parent_path : String) (st : ExpState) (blocks : List Block),
      E.client.get_block_children pid = .ok blocks →
      E.dry_run = false →
      E.mkdir_ok (parent_path ++ "/" ++ sanitize_filename title) = false →
      export_node E (.mk pid title par (c :: cs) db hc) parent_path st =
        (false, { st with
          converter := (convert_blocks st.converter blocks).2
          stats := st.stats.add_error pid "Failed to create directory" }))
    ∧ (∀ (E : Exporter) (pid title : String) (par : Option String)
      (c : PageNode) (cs : List PageNode) (db hc : Bool)
      (parent_path : String) (st : ExpState) (blocks : List Block),
      E.client.get_block_children pid = .ok blocks →
      E.dry_run = false →
      E.mkdir_ok (parent_path ++ "/" ++ sanitize_filename title) = true →
      E.write_ok (parent_path ++ "/" ++ sanitize_filename title ++ "/" ++
        "index.md") = false →
      (export_node E (.mk pid title par (c :: cs) db hc) parent_path st).1 =
        false
      ∧ (export_node E (.mk pid title par (c :: cs) db hc) parent_path
          st).2.stats.errors =
        st.stats.errors ++ [(pid, "Failed to write index.md")]
      ∧ (export_node E (.mk pid title par (c :: cs) db hc) parent_path
          st).2.stats.pages_exported = st.stats.pages_exported
      ∧ (export_node E (.mk pid title par (c :: cs) db hc) parent_path
          st).2.stats.pages_failed = st.stats.pages_failed + 1
      ∧ (export_node E (.mk pid title par (c :: cs) db hc) parent_path
          st).2.stats.files_created = st.stats.files_created)
    ∧ (∀ (E : Exporter) (n : PageNode) (rest : List PageNode) (path : String)
      (st : ExpState),
      export_node_children E (n :: rest) path st =
        export_node_children E rest path (export_node E n path st).2) := by
  refine ⟨?_, ?_, ?_, ?_⟩
  · intro E pid title par c cs db hc parent_path st e herr
    simp [export_node, export_page_content, herr]
  · intro E pid title par c cs db hc parent_path st blocks hok hdry hmkdir
    simp [export_node, export_page_content, hok, create_directory, hdry, hmkdir]
  · intro E pid title par c cs db hc parent_path st blocks hok hdry hmkdir hwrite
    have hcd := create_directory_stats E
      { st with converter := (convert_blocks st.converter blocks).2 }
      (parent_path ++ "/" ++ sanitize_filename title)
    simp only [export_node, export_page_content, hok, write_file, hdry,
      Bool.false_eq_true, if_false, hwrite]
    simp only [create_directory, hdry, Bool.false_eq_true, if_false, hmkdir,
      if_true] at hcd ⊢
    split_ifs at hcd ⊢ <;>
      simp_all [ExportStats.add_error]
  · intro E n rest path st
    rfl






/-- Witness for C10 at concrete inputs: one exporter per failure mode. -/
theorem claim_C10_witness :
    export_node exporter_fetch_fail parent_docs_node "/out"
        (init_exp_state false []) =
      (false, { init_exp_state false [] with
        stats := (init_exp_state false []).stats.add_error "P" "netfail" })
    ∧ export_node exporter_mkdir_fail parent_docs_node "/out"
        (init_exp_state false []) =
      (false, { init_exp_state false [] with
        converter := (convert_blocks (init_exp_state false []).converter []).2
        stats := (init_exp_state false []).stats.add_error "P"
          "Failed to create directory" })
    ∧ (export_node exporter_write_fail parent_docs_node "/out"
        (init_exp_state false [])).2.stats.pages_exported =
      (init_exp_state false []).stats.pages_exported
    ∧ export_node_children exporter_write_fail
        [notes_leaf "a", notes_leaf "b"] "/out" (init_exp_state false []) =
      export_node_children exporter_write_fail [notes_leaf "b"] "/out"
        (export_node exporter_write_fail (notes_leaf "a") "/out"
          (init_exp_state false [])).2 :=
  ⟨claim_C10_subtree_skip.1 exporter_fetch_fail "P" "Docs" none
      (notes_leaf "ch") [] false true "/out" (init_exp_state false [])
      "netfail" rfl,
   claim_C10_subtree_skip.2.1 exporter_mkdir_fail "P" "Docs" none
      (notes_leaf "ch") [] false true "/out" (init_exp_state false [])
      [] rfl rfl rfl,
   (claim_C10_subtree_skip.2.2.1 exporter_write_fail "P" "Docs" none
      (notes_leaf "ch") [] false true "/out" (init_exp_state false [])
      [] rfl rfl rfl rfl).2.2.1,
   claim_C10_subtree_skip.2.2.2 exporter_write_fail (notes_leaf "a")
      [notes_leaf "b"] "/out" (init_exp_state false [])⟩
